import Mathlib

/-!
Verification of the lld-standalone wrapper (src/lld-standalone.cpp).

The program is a shim in front of `ld.lld`: it resolves a target triple
from its own invocation name (falling back to the host default), injects
NetBSD-specific linker flags, strips a leading `-flavor` pair, runs the
downstream linker and relays its exit code.

External LLVM library facilities (the target registry, `llvm::Triple`
parsing, `llvm::sys::path::stem`, `Triple::str`, the generated option
table) are not part of the repository; they are represented as parameters
collected in `ExtEnv`, or modelled from the spec where noted.
-/

namespace LLDStandalone

/-- Architectures distinguished by the switches in
`prependNetBSDCustomization`; every architecture the code does not name
falls into the `default:` branch, represented by the constructors after
`sparc`. -/
inductive ArchType where
  | arm
  | armeb
  | aarch64
  | aarch64_be
  | thumb
  | thumbeb
  | x86
  | ppc
  | sparc
  | x86_64
  | ppc64
  | sparcv9
  | mips
  | riscv64
  | otherArch
deriving DecidableEq

/-- Operating systems: the code only tests `isOSNetBSD()`; other OSes are
represented by a few sample constructors. -/
inductive OSType where
  | netBSD
  | linux
  | freeBSD
  | unknownOS
deriving DecidableEq

/-- Environments distinguished by the inner switch in
`prependNetBSDCustomization`; everything else reaches its `default:`
branch. -/
inductive EnvironmentType where
  | eabi
  | gnueabi
  | eabihf
  | gnueabihf
  | gnu
  | unknownEnv
deriving DecidableEq

/-- A target triple, as the fields of `llvm::Triple` that the wrapper
reads: architecture, operating system, environment. -/
structure Triple where
  arch : ArchType
  os : OSType
  env : EnvironmentType
deriving DecidableEq

/-- External LLVM facilities the wrapper calls but that are not in the
repository: the target registry lookup, `llvm::Triple` construction from a
string, `getDefaultTargetTriple`, `Triple::str`, and `path::stem`. -/
structure ExtEnv where
  lookup : List Char → Bool
  parse : List Char → Triple
  defaultTriple : Triple
  tripleStr : Triple → String
  stemFn : List Char → List Char

/-- Split a character list around its LAST dash, mirroring
`ProgName.rfind('-')` followed by `ProgName.substr(0, lastComponent)`:
returns (text before the last dash, text after it), or `none` when there
is no dash. -/
def rfindSplit : List Char → Option (List Char × List Char)
  | [] => none
  | c :: rest =>
    match rfindSplit rest with
    | some (p, s) => some (c :: p, s)
    | none => if c = '-' then some ([], rest) else none

/-- Embedding of `setTargetTriple` (src/lld-standalone.cpp lines 69-85):
take the stem of argv[0]; if it has a dash and the registry recognizes the
text before the last dash, the triple is the parsed form of that text;
otherwise the host default triple. -/
def setTargetTriple (E : ExtEnv) (argv0 : List Char) : Triple :=
  match rfindSplit (E.stemFn argv0) with
  | some (p, _) => if E.lookup p then E.parse p else E.defaultTriple
  | none => E.defaultTriple

/-- Embedding of `prependNetBSDCustomization` (src/lld-standalone.cpp
lines 87-153): each `args.push_back` becomes an append at the end. -/
def prependNetBSDCustomization (t : Triple) (args : List String) : List String :=
  let args := args ++ ["--no-rosegment"]
  let args := args ++ ["--disable-new-dtags"]
  let args := args ++ ["-znognustack"]
  let args :=
    match t.arch with
    | .aarch64 | .aarch64_be => args ++ ["--image-base=0x200100000"]
    | _ => args
  let args :=
    match t.arch with
    | .x86 => args ++ ["-L=/usr/lib/i386"]
    | .arm | .armeb | .thumb | .thumbeb =>
      match t.env with
      | .eabi | .gnueabi => args ++ ["-L=/usr/lib/eabi"]
      | .eabihf | .gnueabihf => args ++ ["-L=/usr/lib/eabihf"]
      | _ => args ++ ["-L=/usr/lib/oabi"]
    | .ppc => args ++ ["-L=/usr/lib/powerpc"]
    | .sparc => args ++ ["-L=/usr/lib/sparc"]
    | _ => args
  args ++ ["-L=/usr/lib"]

/-- Embedding of `prependTargetCustomization` (lines 155-159). -/
def prependTargetCustomization (t : Triple) (args : List String) : List String :=
  if t.os = .netBSD then prependNetBSDCustomization t args else args

/-- The customization-flag list of a triple: what `prependTargetCustomization`
adds to an empty vector. -/
def customizationFlags (t : Triple) : List String :=
  prependTargetCustomization t []

/-- Embedding of the `-flavor` trimming in `main` (lines 198-203), after
`argc--; argv++` so `args` is the caller argument list without argv[0]:
when `argc > 1` and the first token is `-flavor`, report an error iff
`argc <= 2`, and drop two tokens. Returns (error reported?, remaining). -/
def stripFlavor (args : List String) : Bool × List String :=
  if 2 ≤ args.length ∧ args.head? = some "-flavor" then
    (decide (args.length ≤ 2), args.drop 2)
  else
    (false, args)

/-- Modelled from the spec: the generated option table (Options.inc) is
not in the repository; the spec states the parser recognizes `-v` and
`-version` when present anywhere in the original arguments
(`args.hasArg(OPT_v) || args.hasArg(OPT_version)`). -/
def hasVersionRequest (args : List String) : Bool :=
  decide ("-v" ∈ args ∨ "-version" ∈ args)

/-- The error text printed when `findProgramByName` fails (line 168); the
source message also embeds the underlying system error text, which is
external. -/
def findErrorMessage : String := "unable to find ld.lld in PATH"

/-- The error text for a missing `-flavor` value (line 200). -/
def flavorErrorMessage : String := "missing arg value for -flavor"

/-- Observable outcome of one run of `main`: the exit code, the error
lines written to standard error, the lines the wrapper itself writes to
standard output, and the argument vector handed to `ExecuteAndWait`
(`none` when the run aborts before invocation). -/
structure MainResult where
  exitCode : Int
  errors : List String
  stdoutLines : List String
  invoked : Option (List String)
deriving DecidableEq

/-- Embedding of `main` (lines 161-219). `findResult` is the outcome of
`sys::findProgramByName(LD_LLD_PROGNAME)`; `execResult` the value returned
by `sys::ExecuteAndWait` (negative on launch failure) and `launchError`
its error text; `argv0` the invocation path and `args` the caller
arguments after argv[0]. -/
def runMain (E : ExtEnv) (findResult : Option String) (execResult : Int)
    (launchError : String) (argv0 : List Char) (args : List String) : MainResult :=
  match findResult with
  | none => ⟨1, [findErrorMessage], [], none⟩
  | some program =>
    let printTarget := hasVersionRequest args
    let t := setTargetTriple E argv0
    let afterCustom := prependTargetCustomization t [program]
    let fl := stripFlavor args
    let flavorErrors := if fl.1 then [flavorErrorMessage] else []
    let fullArgv := afterCustom ++ fl.2
    if execResult < 0 then
      ⟨1, flavorErrors ++ [launchError], [], some fullArgv⟩
    else
      ⟨execResult, flavorErrors,
        if printTarget then ["Target: " ++ E.tripleStr t] else [],
        some fullArgv⟩

/-- The architecture-specific library search path as the specification
words it (claim C6): x86 gives the i386 path; the four 32-bit ARM
variants choose among eabi, eabihf and oabi by environment; ppc the
powerpc path; sparc the sparc path; everything else contributes no
flag. -/
def specArchLibPath (a : ArchType) (e : EnvironmentType) : List String :=
  match a with
  | .x86 => ["-L=/usr/lib/i386"]
  | .arm | .armeb | .thumb | .thumbeb =>
    match e with
    | .eabi | .gnueabi => ["-L=/usr/lib/eabi"]
    | .eabihf | .gnueabihf => ["-L=/usr/lib/eabihf"]
    | _ => ["-L=/usr/lib/oabi"]
  | .ppc => ["-L=/usr/lib/powerpc"]
  | .sparc => ["-L=/usr/lib/sparc"]
  | _ => []

/-- A sample non-NetBSD triple, standing in for a typical host default. -/
def sampleTriple : Triple := ⟨.x86_64, .linux, .gnu⟩

/-- The triple the registry scenario of claim C5 parses
`aarch64-netbsd` into. -/
def netbsdAArch64 : Triple := ⟨.aarch64, .netBSD, .unknownEnv⟩

/-- A concrete instantiation of the external facilities: a registry that
recognizes exactly `aarch64-netbsd`, parsing it to `netbsdAArch64`, a
non-NetBSD host default, and an identity stem (the sample invocation
names carry no directory or extension). -/
def sampleEnv : ExtEnv where
  lookup := fun s => decide (s = "aarch64-netbsd".toList)
  parse := fun _ => netbsdAArch64
  defaultTriple := sampleTriple
  tripleStr := fun _ => "x86_64-unknown-linux-gnu"
  stemFn := fun l => l

/-! ## Helper lemmas -/

theorem rfindSplit_of_nodash (l : List Char) (h : '-' ∉ l) : rfindSplit l = none := by
  induction l with
  | nil => rfl
  | cons c rest ih =>
    have hc : ¬ c = '-' := fun e => h (by simp [e])
    have hrest : '-' ∉ rest := fun m => h (List.mem_cons_of_mem _ m)
    simp [rfindSplit, ih hrest, hc]

theorem nodash_of_rfindSplit_none (l : List Char) (h : rfindSplit l = none) : '-' ∉ l := by
  induction l with
  | nil => simp
  | cons c rest ih =>
    unfold rfindSplit at h
    cases hr : rfindSplit rest with
    | some ps => rw [hr] at h; cases h
    | none =>
      rw [hr] at h
      by_cases hc : c = '-'
      · rw [if_pos hc] at h; cases h
      · rw [if_neg hc] at h
        intro hm
        rcases List.mem_cons.mp hm with h1 | h2
        · exact hc h1.symm
        · exact ih hr h2

theorem rfindSplit_last (pre suf : List Char) (h : '-' ∉ suf) :
    rfindSplit (pre ++ '-' :: suf) = some (pre, suf) := by
  induction pre with
  | nil => simp [rfindSplit, rfindSplit_of_nodash suf h]
  | cons c rest ih => simp [rfindSplit, ih]

theorem rfindSplit_some (l p s : List Char) (h : rfindSplit l = some (p, s)) :
    l = p ++ '-' :: s ∧ '-' ∉ s := by
  induction l generalizing p s with
  | nil => cases h
  | cons c rest ih =>
    unfold rfindSplit at h
    cases hr : rfindSplit rest with
    | some ps =>
      obtain ⟨p1, s1⟩ := ps
      rw [hr] at h
      obtain ⟨h1, h2⟩ := ih p1 s1 hr
      simp only [Option.some.injEq, Prod.mk.injEq] at h
      obtain ⟨hp, hs⟩ := h
      subst hp
      subst hs
      exact ⟨by simp [h1], h2⟩
    | none =>
      rw [hr] at h
      by_cases hc : c = '-'
      · rw [if_pos hc] at h
        simp only [Option.some.injEq, Prod.mk.injEq] at h
        obtain ⟨hp, hs⟩ := h
        subst hp
        subst hs
        exact ⟨by simp [hc], nodash_of_rfindSplit_none rest hr⟩
      · rw [if_neg hc] at h
        cases h

theorem prependNetBSD_eq_append (t : Triple) (args : List String) :
    prependNetBSDCustomization t args = args ++ prependNetBSDCustomization t [] := by
  obtain ⟨a, o, e⟩ := t
  cases a <;> cases e <;> simp [prependNetBSDCustomization]

theorem prependTarget_eq_append (t : Triple) (args : List String) :
    prependTargetCustomization t args = args ++ customizationFlags t := by
  by_cases h : t.os = .netBSD
  · simp only [prependTargetCustomization, customizationFlags, if_pos h]
    exact prependNetBSD_eq_append t args
  · simp only [prependTargetCustomization, customizationFlags, if_neg h, List.append_nil]

theorem runMain_invoked (E : ExtEnv) (program launchError : String) (execResult : Int)
    (argv0 : List Char) (args : List String) :
    (runMain E (some program) execResult launchError argv0 args).invoked =
      some (program :: (customizationFlags (setTargetTriple E argv0) ++ (stripFlavor args).2)) := by
  simp only [runMain]
  rw [prependTarget_eq_append]
  by_cases h : execResult < 0 <;> simp [h]

theorem stripFlavor_snd_pair (v : String) (rest : List String) :
    (stripFlavor ("-flavor" :: v :: rest)).2 = rest := by
  simp [stripFlavor]

theorem stripFlavor_eq_self (args : List String)
    (h : ∀ v rest, args ≠ "-flavor" :: v :: rest) :
    stripFlavor args = (false, args) := by
  match args with
  | [] => rfl
  | [a] =>
    unfold stripFlavor
    rw [if_neg]
    rintro ⟨h1, -⟩
    exact absurd h1 (by simp)
  | a :: b :: rest =>
    unfold stripFlavor
    rw [if_neg]
    rintro ⟨-, h2⟩
    simp only [List.head?_cons, Option.some.injEq] at h2
    subst h2
    exact h b rest rfl

theorem setTargetTriple_recognized (E : ExtEnv) (argv0 pre suf : List Char)
    (hs : '-' ∉ suf) (hstem : E.stemFn argv0 = pre ++ '-' :: suf)
    (hl : E.lookup pre = true) :
    setTargetTriple E argv0 = E.parse pre := by
  unfold setTargetTriple
  rw [hstem, rfindSplit_last pre suf hs]
  simp [hl]

/-! ## Claims -/

/-- Claim C1: the final argument vector is the downstream-linker path,
then the customization flags of the resolved triple, then the caller
arguments in order with the `-flavor` pair removed when (and only when)
they are the very first two caller arguments; no other token is
reordered, dropped, or added. -/
theorem c1_final_argv (E : ExtEnv) (program launchError : String) (execResult : Int)
    (argv0 : List Char) (args : List String) :
    (∀ v rest, args = "-flavor" :: v :: rest →
       (runMain E (some program) execResult launchError argv0 args).invoked =
         some (program :: (customizationFlags (setTargetTriple E argv0) ++ rest)))
    ∧ ((∀ v rest, args ≠ "-flavor" :: v :: rest) →
       (runMain E (some program) execResult launchError argv0 args).invoked =
         some (program :: (customizationFlags (setTargetTriple E argv0) ++ args))) := by
  constructor
  · rintro v rest rfl
    rw [runMain_invoked, stripFlavor_snd_pair]
  · intro h
    rw [runMain_invoked, stripFlavor_eq_self args h]

theorem c1_witness :
    (runMain sampleEnv (some "ld.lld") 0 "" "ld".toList ["-flavor", "gnu", "-o", "out"]).invoked =
      some ("ld.lld" :: (customizationFlags (setTargetTriple sampleEnv "ld".toList) ++ ["-o", "out"]))
    ∧ (runMain sampleEnv (some "ld.lld") 0 "" "ld".toList ["-o", "out"]).invoked =
      some ("ld.lld" :: (customizationFlags (setTargetTriple sampleEnv "ld".toList) ++ ["-o", "out"])) :=
  ⟨(c1_final_argv sampleEnv "ld.lld" "" 0 "ld".toList ["-flavor", "gnu", "-o", "out"]).1
      "gnu" ["-o", "out"] rfl,
   (c1_final_argv sampleEnv "ld.lld" "" 0 "ld".toList ["-o", "out"]).2
      (by intro v rest h; injection h with h1 _; exact absurd h1 (by decide))⟩

/-- Claim C2: triple resolution is total and two-branched: when the stem
of the invocation path is `pre-suf` (pre the text before the last dash)
and the registry recognizes `pre`, the resolved triple is the parsed form
of `pre` regardless of `suf`; in every other case (no dash, or prefix
rejected) it is the host default triple. -/
theorem c2_triple_resolution :
    (∀ (E : ExtEnv) (argv0 pre suf : List Char), '-' ∉ suf →
       E.stemFn argv0 = pre ++ '-' :: suf → E.lookup pre = true →
       setTargetTriple E argv0 = E.parse pre)
    ∧ (∀ (E : ExtEnv) (argv0 : List Char),
       (∀ pre suf, '-' ∉ suf → E.stemFn argv0 = pre ++ '-' :: suf → E.lookup pre = false) →
       setTargetTriple E argv0 = E.defaultTriple) := by
  constructor
  · exact setTargetTriple_recognized
  · intro E argv0 h
    unfold setTargetTriple
    cases hsplit : rfindSplit (E.stemFn argv0) with
    | none => rfl
    | some ps =>
      obtain ⟨p, s⟩ := ps
      obtain ⟨h1, h2⟩ := rfindSplit_some _ p s hsplit
      simp [h p s h2 h1]

theorem c2_witness :
    ('-' ∉ "ld".toList
      ∧ sampleEnv.stemFn "aarch64-netbsd-ld".toList = "aarch64-netbsd".toList ++ '-' :: "ld".toList
      ∧ sampleEnv.lookup "aarch64-netbsd".toList = true
      ∧ setTargetTriple sampleEnv "aarch64-netbsd-ld".toList = sampleEnv.parse "aarch64-netbsd".toList)
    ∧ setTargetTriple sampleEnv "ld.lld".toList = sampleEnv.defaultTriple :=
  ⟨⟨by decide, by decide, by decide,
    c2_triple_resolution.1 sampleEnv "aarch64-netbsd-ld".toList "aarch64-netbsd".toList
      "ld".toList (by decide) (by decide) (by decide)⟩,
   c2_triple_resolution.2 sampleEnv "ld.lld".toList
     (by
       intro pre suf hs hstem
       have hstem2 : "ld.lld".toList = pre ++ '-' :: suf := hstem
       have hnone : rfindSplit "ld.lld".toList = none := by decide
       rw [hstem2, rfindSplit_last pre suf hs] at hnone
       cases hnone)⟩

/-- Claim C3: for every triple with operating system NetBSD, the
customization-flag list begins with exactly `--no-rosegment`,
`--disable-new-dtags`, `-znognustack` in that order and ends with
`-L=/usr/lib`, regardless of architecture and environment. -/
theorem c3_netbsd_base_flags (t : Triple) (h : t.os = .netBSD) :
    (customizationFlags t).take 3 =
      ["--no-rosegment", "--disable-new-dtags", "-znognustack"]
    ∧ (customizationFlags t).getLast? = some "-L=/usr/lib" := by
  obtain ⟨a, o, e⟩ := t
  cases h
  cases a <;> cases e <;> exact ⟨rfl, rfl⟩

theorem c3_witness :
    (customizationFlags netbsdAArch64).take 3 =
      ["--no-rosegment", "--disable-new-dtags", "-znognustack"]
    ∧ (customizationFlags netbsdAArch64).getLast? = some "-L=/usr/lib" :=
  c3_netbsd_base_flags netbsdAArch64 rfl

/-- Claim C4: for every triple whose operating system is not NetBSD the
customization-flag list is empty, so the forwarded vector is exactly the
downstream-linker path followed by the flavor-stripped caller
arguments. -/
theorem c4_other_os_empty :
    (∀ t : Triple, t.os ≠ .netBSD → customizationFlags t = [])
    ∧ (∀ (E : ExtEnv) (program launchError : String) (execResult : Int)
        (argv0 : List Char) (args : List String),
        (setTargetTriple E argv0).os ≠ .netBSD →
        (runMain E (some program) execResult launchError argv0 args).invoked =
          some (program :: (stripFlavor args).2)) := by
  have h1 : ∀ t : Triple, t.os ≠ .netBSD → customizationFlags t = [] := by
    intro t h
    simp [customizationFlags, prependTargetCustomization, h]
  refine ⟨h1, ?_⟩
  intro E program launchError execResult argv0 args h
  rw [runMain_invoked, h1 _ h]
  simp

theorem c4_witness :
    customizationFlags sampleTriple = []
    ∧ (runMain sampleEnv (some "ld.lld") 0 "" "ld".toList ["-o", "out"]).invoked =
        some ["ld.lld", "-o", "out"] :=
  ⟨c4_other_os_empty.1 sampleTriple (by decide),
   c4_other_os_empty.2 sampleEnv "ld.lld" "" 0 "ld".toList ["-o", "out"] (by decide)⟩

/-- Claim C5: under NetBSD the flag `--image-base=0x200100000` is in the
customization list iff the architecture is aarch64 or aarch64_be; and the
end-to-end scenario: invocation name `aarch64-netbsd-ld` with no other
arguments, on a registry recognizing `aarch64-netbsd` as a 64-bit ARM
NetBSD triple, yields the final vector `[<ld.lld path>, --no-rosegment,
--disable-new-dtags, -znognustack, --image-base=0x200100000,
-L=/usr/lib]`. -/
theorem c5_image_base :
    (∀ t : Triple, t.os = .netBSD →
       ("--image-base=0x200100000" ∈ customizationFlags t ↔
         t.arch = .aarch64 ∨ t.arch = .aarch64_be))
    ∧ (∀ (E : ExtEnv) (program launchError : String) (execResult : Int)
        (envField : EnvironmentType),
        E.stemFn "aarch64-netbsd-ld".toList = "aarch64-netbsd".toList ++ '-' :: "ld".toList →
        E.lookup "aarch64-netbsd".toList = true →
        E.parse "aarch64-netbsd".toList = ⟨.aarch64, .netBSD, envField⟩ →
        (runMain E (some program) execResult launchError "aarch64-netbsd-ld".toList []).invoked =
          some [program, "--no-rosegment", "--disable-new-dtags", "-znognustack",
                "--image-base=0x200100000", "-L=/usr/lib"]) := by
  constructor
  · intro t h
    obtain ⟨a, o, e⟩ := t
    cases h
    cases a <;> cases e <;> decide
  · intro E program launchError execResult envField hstem hl hp
    have ht : setTargetTriple E "aarch64-netbsd-ld".toList =
        (⟨.aarch64, .netBSD, envField⟩ : Triple) := by
      rw [← hp]
      exact setTargetTriple_recognized E _ _ _ (by decide) hstem hl
    rw [runMain_invoked, ht]
    cases envField <;> rfl

theorem c5_witness :
    ("--image-base=0x200100000" ∈ customizationFlags netbsdAArch64)
    ∧ (runMain sampleEnv (some "ld.lld") 0 "" "aarch64-netbsd-ld".toList []).invoked =
        some ["ld.lld", "--no-rosegment", "--disable-new-dtags", "-znognustack",
              "--image-base=0x200100000", "-L=/usr/lib"] :=
  ⟨(c5_image_base.1 netbsdAArch64 rfl).mpr (Or.inl rfl),
   c5_image_base.2 sampleEnv "ld.lld" "" 0 .unknownEnv (by decide) (by decide) (by decide)⟩

/-- Claim C6: under NetBSD exactly one architecture-specific library
search-path flag sits between the image-base position and the final
`-L=/usr/lib`, chosen per the architecture/environment table (x86 → i386;
32-bit ARM variants → eabi/eabihf/oabi by environment; ppc → powerpc;
sparc → sparc; all other architectures contribute none). -/
theorem c6_arch_lib_path (t : Triple) (h : t.os = .netBSD) :
    customizationFlags t =
      ["--no-rosegment", "--disable-new-dtags", "-znognustack"]
        ++ (if t.arch = .aarch64 ∨ t.arch = .aarch64_be
            then ["--image-base=0x200100000"] else [])
        ++ specArchLibPath t.arch t.env ++ ["-L=/usr/lib"] := by
  obtain ⟨a, o, e⟩ := t
  cases h
  cases a <;> cases e <;> rfl

theorem c6_witness :
    customizationFlags (⟨.arm, .netBSD, .gnueabihf⟩ : Triple) =
      ["--no-rosegment", "--disable-new-dtags", "-znognustack"]
        ++ (if (ArchType.arm = .aarch64 ∨ ArchType.arm = .aarch64_be)
            then ["--image-base=0x200100000"] else [])
        ++ specArchLibPath .arm .gnueabihf ++ ["-L=/usr/lib"] :=
  c6_arch_lib_path ⟨.arm, .netBSD, .gnueabihf⟩ rfl

/-- Claim C7 counterexample: the claim says the exit code is 1 exactly
when the executable cannot be located or the launch fails, but when the
downstream linker is found, launches fine, and itself exits 1, the wrapper
exits 1 with neither failure present — the biconditional is false. -/
theorem c7_counterexample :
    ¬ (((runMain sampleEnv (some "ld.lld") 1 "" "ld".toList []).exitCode = 1) ↔
       ((some "ld.lld" : Option String) = none ∨ (1 : Int) < 0)) := by
  decide

/-- Claim C7 as amended: the wrapper exits 1, with an error message on
standard error, when the executable cannot be located or the launch
fails; in every other case the exit code equals the downstream exit code
verbatim (which may itself be 1), a non-zero downstream status never
being treated as a wrapper error. -/
theorem c7_exit_codes (E : ExtEnv) (findResult : Option String) (execResult : Int)
    (launchError : String) (argv0 : List Char) (args : List String) :
    (findResult = none →
       (runMain E findResult execResult launchError argv0 args).exitCode = 1
       ∧ findErrorMessage ∈ (runMain E findResult execResult launchError argv0 args).errors)
    ∧ (∀ program, findResult = some program → execResult < 0 →
       (runMain E findResult execResult launchError argv0 args).exitCode = 1
       ∧ launchError ∈ (runMain E findResult execResult launchError argv0 args).errors)
    ∧ (∀ program, findResult = some program → 0 ≤ execResult →
       (runMain E findResult execResult launchError argv0 args).exitCode = execResult) := by
  refine ⟨?_, ?_, ?_⟩
  · rintro rfl
    exact ⟨rfl, by simp [runMain]⟩
  · rintro program rfl hneg
    constructor
    · simp [runMain, hneg]
    · simp [runMain, hneg]
  · rintro program rfl hpos
    simp [runMain, not_lt.mpr hpos]

theorem c7_witness :
    ((runMain sampleEnv none 0 "" "ld".toList []).exitCode = 1
      ∧ findErrorMessage ∈ (runMain sampleEnv none 0 "" "ld".toList []).errors)
    ∧ ((runMain sampleEnv (some "ld.lld") (-1) "exec failed" "ld".toList []).exitCode = 1
      ∧ "exec failed" ∈ (runMain sampleEnv (some "ld.lld") (-1) "exec failed" "ld".toList []).errors)
    ∧ (runMain sampleEnv (some "ld.lld") 2 "" "ld".toList []).exitCode = 2 :=
  ⟨(c7_exit_codes sampleEnv none 0 "" "ld".toList []).1 rfl,
   (c7_exit_codes sampleEnv (some "ld.lld") (-1) "exec failed" "ld".toList []).2.1
      "ld.lld" rfl (by decide),
   (c7_exit_codes sampleEnv (some "ld.lld") 2 "" "ld".toList []).2.2
      "ld.lld" rfl (by decide)⟩

/-- Claim C8: when `-v` or `-version` appears anywhere in the caller
arguments, then whenever the downstream linker is found and completes,
the wrapper writes the single line `Target: <resolved-triple-string>` to
standard output in addition to (not instead of) invoking the downstream
linker; when the executable is missing the wrapper exits 1 and prints no
`Target:` line. -/
theorem c8_target_line (E : ExtEnv) (findResult : Option String) (execResult : Int)
    (launchError : String) (argv0 : List Char) (args : List String)
    (hv : "-v" ∈ args ∨ "-version" ∈ args) :
    (∀ program, findResult = some program → 0 ≤ execResult →
       (runMain E findResult execResult launchError argv0 args).stdoutLines =
         ["Target: " ++ E.tripleStr (setTargetTriple E argv0)]
       ∧ (runMain E findResult execResult launchError argv0 args).invoked ≠ none)
    ∧ (findResult = none →
       (runMain E findResult execResult launchError argv0 args).exitCode = 1
       ∧ (runMain E findResult execResult launchError argv0 args).stdoutLines = []) := by
  constructor
  · rintro program rfl hpos
    have hvb : hasVersionRequest args = true := by
      simp [hasVersionRequest]
      exact hv
    constructor
    · simp [runMain, hvb, not_lt.mpr hpos]
    · simp [runMain, not_lt.mpr hpos]
  · rintro rfl
    exact ⟨rfl, rfl⟩

theorem c8_witness :
    (("-v" ∈ (["-v"] : List String) ∨ "-version" ∈ (["-v"] : List String))
      ∧ (runMain sampleEnv (some "ld.lld") 2 "" "ld".toList ["-v"]).stdoutLines =
          ["Target: " ++ sampleEnv.tripleStr (setTargetTriple sampleEnv "ld".toList)]
      ∧ (runMain sampleEnv (some "ld.lld") 2 "" "ld".toList ["-v"]).invoked ≠ none)
    ∧ ((runMain sampleEnv none 0 "" "ld".toList ["-version"]).exitCode = 1
      ∧ (runMain sampleEnv none 0 "" "ld".toList ["-version"]).stdoutLines = []) :=
  ⟨⟨Or.inl (by decide),
    (c8_target_line sampleEnv (some "ld.lld") 2 "" "ld".toList ["-v"]
        (Or.inl (by decide))).1 "ld.lld" rfl (by decide)⟩,
   (c8_target_line sampleEnv none 0 "" "ld".toList ["-version"]
        (Or.inr (by decide))).2 rfl⟩

/-- Claim C9 is right about the intent and the code is wrong: with the
caller arguments exactly `[-flavor]` (the only case where `-flavor` is
first and has no following value) the stripping branch is skipped, no
error is reported, and `-flavor` is forwarded verbatim; the
"missing arg value" error is instead printed when a value IS present
(`[-flavor, gnu]`). The theorem evaluates the embedded code at both
inputs. -/
theorem c9_flavor_bug :
    (runMain sampleEnv (some "ld.lld") 0 "" "ld".toList ["-flavor"]).errors = []
    ∧ (runMain sampleEnv (some "ld.lld") 0 "" "ld".toList ["-flavor"]).invoked =
        some ["ld.lld", "-flavor"]
    ∧ (runMain sampleEnv (some "ld.lld") 0 "" "ld".toList ["-flavor", "gnu"]).errors =
        [flavorErrorMessage] := by
  decide

/-- Claim C10: with the caller arguments exactly `[-flavor]` the
stripping branch is not entered: no error is reported and `-flavor` is
forwarded verbatim; with exactly `[-flavor, value]` the missing-value
error is printed even though a value is present, yet both tokens are
stripped and execution continues with the downstream exit code. -/
theorem c10_flavor_edges (E : ExtEnv) (program launchError : String) (execResult : Int)
    (argv0 : List Char) (v : String) (hpos : 0 ≤ execResult) :
    ((runMain E (some program) execResult launchError argv0 ["-flavor"]).errors = []
      ∧ (runMain E (some program) execResult launchError argv0 ["-flavor"]).invoked =
          some (program :: (customizationFlags (setTargetTriple E argv0) ++ ["-flavor"])))
    ∧ ((runMain E (some program) execResult launchError argv0 ["-flavor", v]).errors =
          [flavorErrorMessage]
      ∧ (runMain E (some program) execResult launchError argv0 ["-flavor", v]).invoked =
          some (program :: customizationFlags (setTargetTriple E argv0))
      ∧ (runMain E (some program) execResult launchError argv0 ["-flavor", v]).exitCode =
          execResult) := by
  refine ⟨⟨?_, ?_⟩, ?_, ?_, ?_⟩
  · simp [runMain, stripFlavor, not_lt.mpr hpos]
  · rw [runMain_invoked]
    simp [stripFlavor]
  · simp [runMain, stripFlavor, not_lt.mpr hpos]
  · rw [runMain_invoked, stripFlavor_snd_pair]
    simp
  · simp [runMain, not_lt.mpr hpos]

theorem c10_witness :
    ((runMain sampleEnv (some "ld.lld") 3 "" "ld".toList ["-flavor"]).errors = []
      ∧ (runMain sampleEnv (some "ld.lld") 3 "" "ld".toList ["-flavor"]).invoked =
          some ("ld.lld" :: (customizationFlags (setTargetTriple sampleEnv "ld".toList) ++ ["-flavor"])))
    ∧ ((runMain sampleEnv (some "ld.lld") 3 "" "ld".toList ["-flavor", "gnu"]).errors =
          [flavorErrorMessage]
      ∧ (runMain sampleEnv (some "ld.lld") 3 "" "ld".toList ["-flavor", "gnu"]).invoked =
          some ("ld.lld" :: customizationFlags (setTargetTriple sampleEnv "ld".toList))
      ∧ (runMain sampleEnv (some "ld.lld") 3 "" "ld".toList ["-flavor", "gnu"]).exitCode = 3) :=
  c10_flavor_edges sampleEnv "ld.lld" "" 3 "ld".toList "gnu" (by decide)

end LLDStandalone
